import Mathlib

/-!
# Verification of the credential-detection and risk-classification engine

Shallow embedding of the detector (`src/utils/credential_detector.py`), the
risk scorer and feature extractor of the GUI (`src/gui/main_gui.py`), and the
ML pipeline (`src/models/ml_classifier.py`), together with theorems settling
the specification claims about them.

Numeric conventions: Python ints become `Nat`, Python floats become `ℚ`
(the claims under scrutiny do not depend on binary floating-point rounding:
all compared quantities are far from the decision thresholds). Python
exceptions become `Option`/`Except` error values.
-/

namespace GithubAnalyzer

/-! ## String helpers -/

/-- `a` is a leading segment of `b` (character lists). -/
def leadsWith : List Char → List Char → Bool
  | [], _ => true
  | _ :: _, [] => false
  | a :: as', b :: bs => a == b && leadsWith as' bs

/-- Python's `needle in hay` substring test, on character lists. -/
def containsSub (needle : List Char) : List Char → Bool
  | [] => leadsWith needle []
  | hay@(_ :: t) => leadsWith needle hay || containsSub needle t

/-- Python's `hay.__contains__(needle)` on strings. -/
def strContains (hay needle : String) : Bool :=
  containsSub needle.data hay.data

/-- Python's `str.lower()` (ASCII behaviour suffices for the data involved). -/
def lowerStr (s : String) : String :=
  String.mk (s.data.map Char.toLower)

/-- The characters Python's regex `\s` class matches. -/
def isPyWs (c : Char) : Bool :=
  c == ' ' || c == '\t' || c == '\n' || c == '\r' || c == '\x0b' || c == '\x0c'

/-- Python's `text.split('\n')`: the segments between newline characters,
empty segments included (`""` splits to `[""]`). -/
def splitLines : List Char → List (List Char)
  | [] => [[]]
  | c :: t =>
    match splitLines t with
    | [] => [[c]]
    | h :: r => if c == '\n' then [] :: h :: r else (c :: h) :: r

/-- Python's `str.strip()` on a character list (ASCII whitespace, all that
occurs in the data involved). -/
def pyStrip (l : List Char) : List Char :=
  ((l.dropWhile isPyWs).reverse.dropWhile isPyWs).reverse

/-! ## A small regex engine

Backtracking matcher with Python `re` semantics for the constructs the
repository's patterns use: case-insensitive literals and classes (all the
source patterns are compiled with `re.IGNORECASE`), `.`, concatenation,
alternation tried left to right, and greedy counted repetition.  Matching is
anchored at the start of the input; scanning over start positions reproduces
`finditer`.  A fuel parameter bounds the recursion depth; it is chosen far
above the depth any of the patterns can need on the inputs evaluated here. -/

inductive RE where
  | eps
  | lit (c : Char)
  | cls (neg : Bool) (ranges : List (Char × Char))
  | dot
  | seq (a b : RE)
  | alt (a b : RE)
  | rep (lo : Nat) (hi : Option Nat) (a : RE)
deriving Repr

/-- Does `c` fall in one of the ranges? -/
def inRanges (rs : List (Char × Char)) (c : Char) : Bool :=
  rs.any fun p => decide (p.1.toNat ≤ c.toNat) && decide (c.toNat ≤ p.2.toNat)

/-- Class membership under `re.IGNORECASE`: the character or one of its case
variants must fall in the class; a negated class is the complement of that. -/
def classMatch (neg : Bool) (rs : List (Char × Char)) (c : Char) : Bool :=
  let hit := inRanges rs c || inRanges rs c.toLower || inRanges rs c.toUpper
  if neg then !hit else hit

/-- Decrement an optional repetition bound. -/
def decOpt : Option Nat → Option Nat
  | none => none
  | some n => some (n - 1)

/-- Anchored match in continuation-passing style.  `k` receives the suffix
left after the candidate match; alternatives are tried in Python's preference
order (left alternative first, greedy repetition longest first), so the first
success is the match Python's engine reports. -/
def mre : Nat → RE → List Char → (List Char → Option (List Char)) → Option (List Char)
  | 0, _, _, _ => none
  | fuel + 1, re, s, k =>
    match re with
    | .eps => k s
    | .lit c =>
      match s with
      | [] => none
      | x :: t => if x.toLower == c.toLower then k t else none
    | .cls neg rs =>
      match s with
      | [] => none
      | x :: t => if classMatch neg rs x then k t else none
    | .dot =>
      match s with
      | [] => none
      | x :: t => if x == '\n' then none else k t
    | .seq a b => mre fuel a s fun s2 => mre fuel b s2 k
    | .alt a b =>
      match mre fuel a s k with
      | some r => some r
      | none => mre fuel b s k
    | .rep lo hi a =>
      match lo with
      | m + 1 => mre fuel a s fun s2 => mre fuel (.rep m (decOpt hi) a) s2 k
      | 0 =>
        if hi == some 0 then k s
        else
          match mre fuel a s (fun s2 => mre fuel (.rep 0 (decOpt hi) a) s2 k) with
          | some r => some r
          | none => k s

/-- Depth budget for `mre`; far above what the repository's patterns can use
on the lines evaluated in this file. -/
def mreFuel : Nat := 2000

/-- All matches of `re.finditer`: scan start positions left to right, emit the
preferred match at the first position that matches, resume after its end.
The step counter starts at `input length + 1`, enough for every position. -/
def scanAll : Nat → RE → List Char → List (List Char)
  | 0, _, _ => []
  | n + 1, re, s =>
    match mre mreFuel re s some with
    | some rest =>
      let len := s.length - rest.length
      let m := s.take len
      if len == 0 then m :: scanAll n re (s.drop 1)
      else m :: scanAll n re rest
    | none =>
      match s with
      | [] => []
      | _ :: t => scanAll n re t

/-- `re.search` as a Boolean: does the pattern match anywhere? -/
def reSearch : Nat → RE → List Char → Bool
  | 0, _, _ => false
  | n + 1, re, s =>
    (mre mreFuel re s some).isSome ||
      match s with
      | [] => false
      | _ :: t => reSearch n re t

/-- Concatenation of a pattern list. -/
def rcat (l : List RE) : RE := l.foldr .seq .eps

/-- A case-insensitive literal string pattern. -/
def rlit (s : String) : RE := rcat (s.data.map .lit)

/-- Alternation tried left to right, as Python does. -/
def ralts : List RE → RE
  | [] => .eps
  | [a] => a
  | a :: rest => .alt a (ralts rest)

/-- A positive character class given by ranges. -/
def rcls (rs : List (Char × Char)) : RE := .cls false rs

/-- Single characters as degenerate ranges, for class construction. -/
def chs (cs : List Char) : List (Char × Char) := cs.map fun c => (c, c)

/-! ## The credential patterns (`src/config/config.py`, `CREDENTIAL_PATTERNS`)

Each pattern below transcribes the corresponding Python regex literally; the
original regex is quoted in the comment.  All are compiled with
`re.IGNORECASE` in `CredentialDetector.__init__`, which the engine above
builds in. -/

/-- Ranges for `[0-9a-zA-Z]`. -/
def alnumRanges : List (Char × Char) := [('0', '9'), ('a', 'z'), ('A', 'Z')]

/-- The class `[0-9a-zA-Z]`. -/
def alnumCls : RE := .cls false alnumRanges

/-- Ranges for `\s`. -/
def wsRanges : List (Char × Char) := chs [' ', '\t', '\n', '\r', '\x0b', '\x0c']

/-- The separator class `['"\s:=]` used by the key/value patterns. -/
def sepCls : RE := .cls false (chs ['\'', '"', ':', '='] ++ wsRanges)

/-- The value class `[^\s'"]`. -/
def notWsQuoteCls : RE := .cls true (wsRanges ++ chs ['\'', '"'])

/-- `AKIA[0-9A-Z]{16}` -/
def reAwsAccessKey : RE :=
  rcat [rlit "AKIA", .rep 16 (some 16) (rcls [('0', '9'), ('A', 'Z')])]

/-- `aws(.{0,20})?['"][0-9a-zA-Z\/+]{40}['"]` -/
def reAwsSecretKey : RE :=
  rcat [rlit "aws", .rep 0 (some 1) (.rep 0 (some 20) .dot),
    rcls (chs ['\'', '"']),
    .rep 40 (some 40) (.cls false (alnumRanges ++ chs ['/', '+'])),
    rcls (chs ['\'', '"'])]

/-- `gh[pousr]_[0-9a-zA-Z]{36}` -/
def reGithubToken : RE :=
  rcat [rlit "gh", rcls (chs ['p', 'o', 'u', 's', 'r']), .lit '_',
    .rep 36 (some 36) alnumCls]

/-- `github_pat_[0-9a-zA-Z_]{82}` -/
def reGithubPat : RE :=
  rcat [rlit "github_pat_", .rep 82 (some 82) (.cls false (alnumRanges ++ chs ['_']))]

/-- `gho_[0-9a-zA-Z]{36}` -/
def reGithubOauth : RE :=
  rcat [rlit "gho_", .rep 36 (some 36) alnumCls]

/-- `(?:password|passwd|pwd|db_pass|db_password)['"\s:=]+[^\s'"]{6,}` -/
def reDbPassword : RE :=
  rcat [ralts [rlit "password", rlit "passwd", rlit "pwd", rlit "db_pass",
      rlit "db_password"],
    .rep 1 none sepCls, .rep 6 none notWsQuoteCls]

/-- `password['"\s:=]+[^\s'"]{6,}` -/
def rePassword : RE :=
  rcat [rlit "password", .rep 1 none sepCls, .rep 6 none notWsQuoteCls]

/-- `(?:user|username|db_user)['"\s:=]+[^\s'"]{4,}` -/
def reDbUser : RE :=
  rcat [ralts [rlit "user", rlit "username", rlit "db_user"],
    .rep 1 none sepCls, .rep 4 none notWsQuoteCls]

/-- `(?:mongodb|mysql|postgresql|sqlserver|postgres|mssql|oracle|sqlite):\/\/[^\s'"]+` -/
def reConnectionString : RE :=
  rcat [ralts [rlit "mongodb", rlit "mysql", rlit "postgresql", rlit "sqlserver",
      rlit "postgres", rlit "mssql", rlit "oracle", rlit "sqlite"],
    rlit "://", .rep 1 none notWsQuoteCls]

/-- `api[_-]?key['"\s:=]+[0-9a-zA-Z]{12,}` -/
def reGenericApiKey : RE :=
  rcat [rlit "api", .rep 0 (some 1) (rcls (chs ['_', '-'])), rlit "key",
    .rep 1 none sepCls, .rep 12 none alnumCls]

/-- `secret['"\s:=]+[0-9a-zA-Z]{12,}` -/
def reGenericSecret : RE :=
  rcat [rlit "secret", .rep 1 none sepCls, .rep 12 none alnumCls]

/-- `-----BEGIN (RSA|DSA|EC|OPENSSH) PRIVATE KEY-----` -/
def rePrivateKey : RE :=
  rcat [rlit "-----BEGIN ", ralts [rlit "RSA", rlit "DSA", rlit "EC", rlit "OPENSSH"],
    rlit " PRIVATE KEY-----"]

/-- `xox[baprs]-[0-9a-zA-Z]{10,48}` -/
def reSlackToken : RE :=
  rcat [rlit "xox", rcls (chs ['b', 'a', 'p', 'r', 's']), .lit '-',
    .rep 10 (some 48) alnumCls]

/-- `sk_live_[0-9a-zA-Z]{24}` -/
def reStripeKey : RE :=
  rcat [rlit "sk_live_", .rep 24 (some 24) alnumCls]

/-- `AIza[0-9A-Za-z\\-_]{35}` — inside the class, `\\-_` is the range from
backslash (0x5C) to underscore (0x5F), as Python parses it. -/
def reGoogleApi : RE :=
  rcat [rlit "AIza", .rep 35 (some 35) (.cls false (alnumRanges ++ [('\\', '_')]))]

/-- `[h|H][e|E][r|R][o|O][k|K][u|U].{0,30}[0-9A-F]{8}-[0-9A-F]{4}-[0-9A-F]{4}-[0-9A-F]{4}-[0-9A-F]{12}`
(the `|` inside the classes is a literal character, as Python reads it). -/
def reHerokuApi : RE :=
  let hex : Nat → RE := fun n => .rep n (some n) (rcls [('0', '9'), ('A', 'F')])
  rcat [rcls (chs ['h', '|', 'H']), rcls (chs ['e', '|', 'E']),
    rcls (chs ['r', '|', 'R']), rcls (chs ['o', '|', 'O']),
    rcls (chs ['k', '|', 'K']), rcls (chs ['u', '|', 'U']),
    .rep 0 (some 30) .dot,
    hex 8, .lit '-', hex 4, .lit '-', hex 4, .lit '-', hex 4, .lit '-', hex 12]

/-- `key-[0-9a-zA-Z]{32}` -/
def reMailgunApi : RE :=
  rcat [rlit "key-", .rep 32 (some 32) alnumCls]

/-- `eyJ[0-9a-zA-Z_-]*\.eyJ[0-9a-zA-Z_-]*\.[0-9a-zA-Z_-]*` -/
def reJwtToken : RE :=
  let body : RE := .rep 0 none (.cls false (alnumRanges ++ chs ['_', '-']))
  rcat [rlit "eyJ", body, .lit '.', rlit "eyJ", body, .lit '.', body]

/-- `Bearer\s+[0-9a-zA-Z\-._~+\/]+=*` -/
def reBearerToken : RE :=
  rcat [rlit "Bearer", .rep 1 none (.cls false wsRanges),
    .rep 1 none (.cls false (alnumRanges ++ chs ['-', '.', '_', '~', '+', '/'])),
    .rep 0 none (.lit '=')]

/-- `CREDENTIAL_PATTERNS`, in the dict's insertion order (the order
`CredentialDetector.detect_in_text` iterates the compiled patterns in). -/
def credentialPatterns : List (String × RE) :=
  [("aws_access_key", reAwsAccessKey),
   ("aws_secret_key", reAwsSecretKey),
   ("github_token", reGithubToken),
   ("github_pat", reGithubPat),
   ("github_oauth", reGithubOauth),
   ("db_password", reDbPassword),
   ("password", rePassword),
   ("db_user", reDbUser),
   ("connection_string", reConnectionString),
   ("generic_api_key", reGenericApiKey),
   ("generic_secret", reGenericSecret),
   ("private_key", rePrivateKey),
   ("slack_token", reSlackToken),
   ("stripe_key", reStripeKey),
   ("google_api", reGoogleApi),
   ("heroku_api", reHerokuApi),
   ("mailgun_api", reMailgunApi),
   ("jwt_token", reJwtToken),
   ("bearer_token", reBearerToken)]

/-! ## False-positive filtering (`CredentialDetector._is_false_positive`) -/

/-- The `false_positive_patterns` regex list, transcribed in order:
`example\.com`, `your[_-]?api[_-]?key`, `your[_-]?password`, `placeholder`,
`dummy`, `test[_-]?key`, `fake[_-]?token`, `xxxxxxxx`, `\*\*\*\*\*`, `<.*>`,
`\$\x7b.*\x7d` (environment variables), `\x7b\x7b.*\x7d\x7d` (templates). -/
def falsePositiveREs : List RE :=
  let sep : RE := .rep 0 (some 1) (rcls (chs ['_', '-']))
  [rlit "example.com",
   rcat [rlit "your", sep, rlit "api", sep, rlit "key"],
   rcat [rlit "your", sep, rlit "password"],
   rlit "placeholder",
   rlit "dummy",
   rcat [rlit "test", sep, rlit "key"],
   rcat [rlit "fake", sep, rlit "token"],
   rlit "xxxxxxxx",
   rlit "*****",
   rcat [.lit '<', .rep 0 none .dot, .lit '>'],
   rcat [.lit '$', .lit '\x7b', .rep 0 none .dot, .lit '\x7d'],
   rcat [.lit '\x7b', .lit '\x7b', .rep 0 none .dot, .lit '\x7d', .lit '\x7d']]

/-- Some generic false-positive pattern fires on the lowercased match text
(the first loop of `_is_false_positive`). -/
def genericFalsePositive (matchText : String) : Bool :=
  let low := (lowerStr matchText).data
  falsePositiveREs.any fun re => reSearch (low.length + 1) re low

/-- Separator characters of the value-extraction regex class `[:=\s'"]`. -/
def isSepChar (c : Char) : Bool :=
  c == ':' || c == '=' || c == '\'' || c == '"' || isPyWs c

/-- Characters the captured value may contain: the complement of
`[\s'"\x7b\x7d[\],;]` (the capture class of the value-extraction regex). -/
def isCapChar (c : Char) : Bool :=
  !(isPyWs c || c == '\'' || c == '"' || c == '\x7b' || c == '\x7d' ||
    c == '[' || c == ']' || c == ',' || c == ';')

/-- Try to start the captured value at offset `j` of `s`: succeeds when the
character there is capturable, returning the maximal capturable run. -/
def capAt (s : List Char) (j : Nat) : Option (List Char) :=
  match s.drop j with
  | [] => none
  | c :: t => if isCapChar c then some (c :: t.takeWhile isCapChar) else none

/-- Backtracking over the greedy separator run: try the longest separator run
first, shrinking it one character at a time (never below one), exactly the
order Python's engine explores `[:=\s'"]+(...)`. -/
def tryOffsets (s : List Char) : Nat → Option (List Char)
  | 0 => none
  | j + 1 =>
    match capAt s (j + 1) with
    | some v => some v
    | none => tryOffsets s j

/-- `re.search(r'[:=\s'"]+([^\s'"\x7b\x7d[\],;]+)', match_text)`, returning
capture group 1: the leftmost position where a separator run followed by a
capturable run matches. -/
def extractValue : List Char → Option (List Char)
  | [] => none
  | c :: t =>
    if isSepChar c then
      let r := ((c :: t).takeWhile isSepChar).length
      match tryOffsets (c :: t) r with
      | some v => some v
      | none => extractValue t
    else extractValue t

/-- The stop-word list of the password-specific check. -/
def passwordPlaceholders : List String :=
  ["password", "passwd", "mypassword", "yourpassword", "contraseña",
   "secret", "xxxx", "****"]

/-- The password-specific branch of `_is_false_positive`: reject when the
extracted value is shorter than 4 characters or is a stop word; when no value
can be isolated, reject when the whole match is shorter than 8 characters. -/
def passwordValueCheck (matchText : String) : Bool :=
  match extractValue matchText.data with
  | some v =>
    let value := String.mk (v.map Char.toLower)
    decide (v.length < 4) || passwordPlaceholders.contains value
  | none => decide (matchText.length < 8)

/-- `CredentialDetector._is_false_positive`. -/
def isFalsePositive (matchText credType : String) : Bool :=
  if genericFalsePositive matchText then true
  else if credType == "password" then passwordValueCheck matchText
  else false

/-! ## The detector proper (`src/utils/credential_detector.py`) -/

/-- `CredentialDetector._determine_severity`. -/
def determine_severity (credType : String) : String :=
  if ["aws_access_key", "aws_secret_key", "private_key", "stripe_key"].contains credType
  then "CRITICAL"
  else if ["github_token", "github_oauth", "google_api", "heroku_api"].contains credType
  then "HIGH"
  else "MEDIUM"

/-- A detection record, as built by `detect_in_text`/`detect_in_commit_diff`. -/
structure Detection where
  dtype : String
  file_path : String
  line_number : Nat
  pattern : String
  severity : String
deriving DecidableEq, Repr

/-- The detections one (already marker-stripped) line contributes: every
pattern's matches on the line, minus false positives, stamped with the given
line number.  Shared body of the two scan loops. -/
def detectionsInLine (filePath : String) (lineNumber : Nat) (line : String) :
    List Detection :=
  credentialPatterns.flatMap fun p =>
    (((scanAll (line.data.length + 1) p.2 line.data)).filter
        (fun m => !isFalsePositive (String.mk m) p.1)).map
      fun m =>
        { dtype := p.1, file_path := filePath, line_number := lineNumber,
          pattern := String.mk (m.take 50), severity := determine_severity p.1 }

/-- `CredentialDetector.detect_in_text`: every line of the text is scanned,
with 1-based line numbers (`enumerate(lines, start=1)`). -/
def detect_in_text (text : String) (filePath : String) : List Detection :=
  ((splitLines text.data).enum).flatMap fun p =>
    detectionsInLine filePath (p.1 + 1) (String.mk p.2)

/-- `CredentialDetector.detect_in_commit_diff`: only lines starting with `+`
but not `+++` are scanned, after dropping the marker (`line[1:].strip()`);
line numbers again enumerate **all** lines of the diff from 1. -/
def detect_in_commit_diff (diffContent : String) (filePath : String) :
    List Detection :=
  ((splitLines diffContent.data).enum).flatMap fun p =>
    if leadsWith ['+'] p.2 && !leadsWith ['+', '+', '+'] p.2 then
      detectionsInLine filePath (p.1 + 1) (String.mk (pyStrip (p.2.drop 1)))
    else []

/-- `CredentialDetector.suspicious_keywords`. -/
def suspiciousKeywords : List String :=
  ["password", "passwd", "pwd", "secret", "token", "api_key",
   "apikey", "access_key", "private_key", "auth", "credential",
   "database_url", "db_password", "oauth", "jwt"]

/-- `CredentialDetector.has_suspicious_keywords`. -/
def has_suspicious_keywords (text : String) : Bool :=
  suspiciousKeywords.any fun k => strContains (lowerStr text) k

/-- `CredentialDetector.sensitive_files`. -/
def sensitiveFiles : List String :=
  [".env", ".env.local", ".env.production", "config.json",
   "credentials.json", "secrets.yml", "secrets.yaml",
   "settings.py", "config.py", "application.properties",
   "docker-compose.yml", "kubernetes.yml", ".aws/credentials"]

/-- `CredentialDetector.is_sensitive_file`. -/
def is_sensitive_file (filePath : String) : Bool :=
  sensitiveFiles.any fun s => strContains (lowerStr filePath) s

/-! ## Risk scoring (`src/gui/main_gui.py`) -/

/-- The repository risk levels. -/
inductive RiskLevel where
  | LOW
  | MEDIUM
  | HIGH
  | CRITICAL
deriving DecidableEq, Repr

/-- `GitHubAnalyzerGUI.determine_risk_level`.  The only guard in the source
is `total_credentials == 0`; when it fails the ratio
`total_credentials / total_commits` is computed unconditionally, so
`total_commits == 0` with detections present raises `ZeroDivisionError`,
embedded here as `none`. -/
def determine_risk_level (totalCredentials totalCommits : Nat) : Option RiskLevel :=
  if totalCredentials = 0 then some .LOW
  else if totalCommits = 0 then none
  else
    let r : ℚ := (totalCredentials : ℚ) / (totalCommits : ℚ)
    if r > 1 / 10 then some .CRITICAL
    else if r > 1 / 20 then some .HIGH
    else if r > 1 / 100 then some .MEDIUM
    else some .LOW

/-- `GitHubAnalyzerGUI.calculate_risk_score`: starts at 0; adds
`0.5 + 0.1 * num_credentials` when credentials were found; adds `0.1` when
additions exceed 100 and another `0.1` when more than 10 files changed —
both of the last two regardless of `has_credentials` — then clamps at 1. -/
def calculate_risk_score (hasCredentials : Bool) (numCredentials : Nat)
    (additions filesChanged : Nat) : ℚ :=
  let s0 : ℚ := 0
  let s1 := if hasCredentials then s0 + (1 / 2 + (numCredentials : ℚ) * (1 / 10)) else s0
  let s2 := if 100 < additions then s1 + 1 / 10 else s1
  let s3 := if 10 < filesChanged then s2 + 1 / 10 else s2
  min s3 1

/-! ## Feature extraction -/

/-- `0/1` (or Python `False/True`, numerically equal) as a feature value. -/
def boolQ (b : Bool) : ℚ := if b then 1 else 0

/-- `severity_map = {CRITICAL: 3, HIGH: 2, MEDIUM: 1, NONE: 0}` with
`.get(sev, 0)` for anything else. -/
def severityVal (s : String) : Nat :=
  if s == "CRITICAL" then 3 else if s == "HIGH" then 2
  else if s == "MEDIUM" then 1 else 0

/-- The running maximum of mapped severities over the regex detections, as
both extractors compute it (starting from 0). -/
def maxRegexSeverity (dets : List Detection) : Nat :=
  dets.foldl (fun acc d => max acc (severityVal d.severity)) 0

/-- A changed file as the GUI's `commit_details['files']` entries expose it
(only the `filename` key is consulted by the feature extractor). -/
structure GuiFile where
  filename : String
deriving DecidableEq, Repr

/-- The per-commit detail record consumed by `extract_commit_features`. -/
structure GuiCommitDetails where
  files_changed : Nat
  additions : Nat
  deletions : Nat
  files : List GuiFile

/-- The commit record consumed by `extract_commit_features` (`date` is kept
as its hour and weekday, the only fields the source reads from it). -/
structure GuiCommit where
  message : String
  date_hour : Nat
  date_weekday : Nat
  has_credentials : Bool
  risk_score : ℚ

/-- `GitHubAnalyzerGUI.extract_commit_features`: the feature dict in its
insertion order, with values exactly as the source computes them. -/
def extract_commit_features (commit : GuiCommit) (details : GuiCommitDetails) :
    List (String × ℚ) :=
  let message := commit.message
  let regexDetections := detect_in_text message ""
  [("has_suspicious_keywords", boolQ (has_suspicious_keywords message)),
   ("regex_detected_count", (regexDetections.length : ℚ)),
   ("max_regex_severity", (maxRegexSeverity regexDetections : ℚ)),
   ("is_sensitive_file", boolQ (details.files.any fun f => is_sensitive_file f.filename)),
   ("commit_hour", (commit.date_hour : ℚ)),
   ("commit_day_of_week", (commit.date_weekday : ℚ)),
   ("message_length", (message.length : ℚ)),
   ("files_modified", (details.files_changed : ℚ)),
   ("code_additions", (details.additions : ℚ)),
   ("code_deletions", (details.deletions : ℚ)),
   ("has_config_files", boolQ (details.files.any fun f => is_sensitive_file f.filename)),
   ("has_env_files", boolQ (details.files.any fun f => strContains (lowerStr f.filename) ".env")),
   ("prediction_label", boolQ commit.has_credentials),
   ("prediction_confidence", commit.risk_score)]

/-- `suspicious_words` of `CommitClassifier._check_suspicious_keywords`
(a shorter list than the detector's). -/
def mlSuspiciousWords : List String :=
  ["password", "secret", "token", "api_key", "credential",
   "auth", "private", "key", "config", "env"]

/-- `CommitClassifier._check_suspicious_keywords`. -/
def check_suspicious_keywords (text : String) : Bool :=
  mlSuspiciousWords.any fun w => strContains (lowerStr text) w

/-- One row of the commits DataFrame as `CommitClassifier.extract_features`
reads it (`commit_date` is kept as its hour and weekday, the only fields
used). -/
structure MlCommitRow where
  date_hour : Nat
  date_weekday : Nat
  commit_message : String
  files_changed : Nat
  additions : Nat
  deletions : Nat
  has_credentials : Bool
  file_path : String

/-- The feature dict `CommitClassifier.extract_features` builds for one
commit row, in the source's insertion order.  Note `total_changes` and
`change_ratio` are present, and `has_config_files`/`has_env_files` are the
hard-coded constants `0` of the source (its comment: they *would* be
determined by analysing file names). -/
def extract_features_row (commit : MlCommitRow) : List (String × ℚ) :=
  let message := commit.commit_message
  let regexDetections := detect_in_text message ""
  [("commit_hour", (commit.date_hour : ℚ)),
   ("commit_day_of_week", (commit.date_weekday : ℚ)),
   ("message_length", (message.length : ℚ)),
   ("has_suspicious_keywords", boolQ (check_suspicious_keywords message)),
   ("regex_detected_count", (regexDetections.length : ℚ)),
   ("max_regex_severity", (maxRegexSeverity regexDetections : ℚ)),
   ("is_sensitive_file", boolQ (is_sensitive_file commit.file_path)),
   ("files_modified", (commit.files_changed : ℚ)),
   ("code_additions", (commit.additions : ℚ)),
   ("code_deletions", (commit.deletions : ℚ)),
   ("total_changes", ((commit.additions + commit.deletions : Nat) : ℚ)),
   ("change_ratio", (commit.additions : ℚ) / ((commit.deletions : ℚ) + 1)),
   ("has_config_files", 0),
   ("has_env_files", 0),
   ("label", boolQ commit.has_credentials)]

/-! ## The classifier (`src/models/ml_classifier.py`)

The sklearn estimator is abstracted as a function from a scaled feature row
to a hard label and the class-probability vector; the fitted
`StandardScaler` as its per-feature mean and scale. -/

/-- The mutable state of a `CommitClassifier`: `model is None` until `train`
runs. -/
structure Classifier where
  model : Option (List ℚ → Nat × List ℚ)
  scalerMean : List ℚ
  scalerScale : List ℚ
  feature_names : List String

/-- `StandardScaler.transform` on one row: `(x - mean) / scale`
feature-wise. -/
def scaleRow (mean scale xs : List ℚ) : List ℚ :=
  (xs.zip (mean.zip scale)).map fun p => (p.1 - p.2.1) / p.2.2

/-- Column lookup in a single-row DataFrame (a name-to-value record). -/
def lookupCol (n : String) (row : List (String × ℚ)) : Option ℚ :=
  (row.find? fun p => p.1 == n).map fun p => p.2

/-- Pandas column selection `df[self.feature_names]`: the requested columns
are picked out **in the requested order**; extra columns of `df` are silently
dropped; a missing column makes the whole selection fail (`KeyError`). -/
def selectColumns : List String → List (String × ℚ) → Option (List ℚ)
  | [], _ => some []
  | n :: ns, row =>
    match lookupCol n row, selectColumns ns row with
    | some v, some vs => some (v :: vs)
    | _, _ => none

/-- `CommitClassifier.predict` on one feature row: raises when untrained,
selects `self.feature_names` from the input (pandas semantics above), scales
with the fitted scaler and applies the model.  No method of the source
assigns to `self` on this path, so the classifier state is returned
unchanged. -/
def predict (c : Classifier) (row : List (String × ℚ)) :
    Except String (Nat × List ℚ) × Classifier :=
  match c.model with
  | none => (.error "El modelo no ha sido entrenado", c)
  | some m =>
    match selectColumns c.feature_names row with
    | none => (.error "KeyError", c)
    | some xs => (.ok (m (scaleRow c.scalerMean c.scalerScale xs)), c)

/-- Evaluation metrics of `CommitClassifier.evaluate` (the confusion matrix
is kept as its four cells). -/
structure EvalMetrics where
  accuracy : ℚ
  prec : ℚ
  recl : ℚ
  f1 : ℚ
  tn : Nat
  fpCount : Nat
  fnCount : Nat
  tp : Nat
deriving DecidableEq, Repr

/-- Count prediction/truth pairs equal to `(p, a)`. -/
def countPairs (pairs : List (Nat × Nat)) (p a : Nat) : Nat :=
  (pairs.filter fun x => x.1 == p && x.2 == a).length

/-- `CommitClassifier.evaluate`: raises when untrained; otherwise computes
accuracy, precision, sensitivity (`recl`) and F1 of the model's predictions on the test
rows.  The sklearn calls use `zero_division=0`, matching `ℚ`'s
division-by-zero convention, so the ratios are written directly. -/
def evaluate (c : Classifier) (xTest : List (List ℚ)) (yTest : List Nat) :
    Except String EvalMetrics × Classifier :=
  match c.model with
  | none => (.error "El modelo no ha sido entrenado", c)
  | some m =>
    let preds := xTest.map fun x => (m x).1
    let pairs := preds.zip yTest
    let tp := countPairs pairs 1 1
    let fpC := countPairs pairs 1 0
    let fnC := countPairs pairs 0 1
    let tn := countPairs pairs 0 0
    let acc : ℚ := ((pairs.filter fun x => x.1 == x.2).length : ℚ) / (pairs.length : ℚ)
    let prec : ℚ := (tp : ℚ) / ((tp : ℚ) + (fpC : ℚ))
    let recl : ℚ := (tp : ℚ) / ((tp : ℚ) + (fnC : ℚ))
    let f1v : ℚ := 2 * prec * recl / (prec + recl)
    (.ok ⟨acc, prec, recl, f1v, tn, fpC, fnC, tp⟩, c)

/-- The result of `CommitClassifier.prepare_data`: the four returned splits. -/
structure SplitData where
  xTrain : List (List ℚ)
  xTest : List (List ℚ)
  yTrain : List Nat
  yTest : List Nat
deriving Repr

/-- `CommitClassifier.prepare_data`, with the external library steps passed
in as functions: `tts` is `sklearn.train_test_split` (stratified, with the
adaptive test fraction — its internals are irrelevant to the claims proved
here), `smote` is `SMOTE.fit_resample` which may fail, and `mkScaler` fits a
`StandardScaler` on the (possibly oversampled) training rows and returns its
row transform.  Faithful to the source's order: split first; SMOTE on the
training split only, inside try/except (a failure is logged and skipped);
then the scaler is fit on the training rows and applied to both splits.
`y_test` is never touched after the split. -/
def prepare_data (tts : List (List ℚ × Nat) → SplitData)
    (smote : List (List ℚ) → List Nat → Except String (List (List ℚ) × List Nat))
    (mkScaler : List (List ℚ) → (List ℚ → List ℚ))
    (featuresDf : List (List ℚ × Nat)) : SplitData :=
  let s := tts featuresDf
  let tr :=
    match smote s.xTrain s.yTrain with
    | .ok p => p
    | .error _ => (s.xTrain, s.yTrain)
  let f := mkScaler tr.1
  { xTrain := tr.1.map f, xTest := s.xTest.map f, yTrain := tr.2, yTest := s.yTest }

/-! ## Cross-validation inside `CommitClassifier.train`

`train` (ml_classifier.py:249-279) tries k-fold cross-validation when the
minority class has at least 3 samples, and falls back to in-sample F1 with
zero standard deviation and fold count 1 otherwise **or when the
cross-validation call raises**. -/

/-- Modelled from the library the source calls: the keyword parameters
accepted by `sklearn.model_selection.cross_val_score` (every sklearn release
in use; the function takes no `**kwargs`).  `zero_division` is a parameter
of `f1_score`, not of `cross_val_score`. -/
def crossValScoreKwargNames : List String :=
  ["estimator", "X", "y", "groups", "scoring", "cv", "n_jobs", "verbose",
   "fit_params", "pre_dispatch", "error_score"]

/-- The keyword arguments the source passes at ml_classifier.py:256-259:
`cv=num_folds, scoring='f1', zero_division=0`. -/
def trainCvCallKwargNames : List String := ["cv", "scoring", "zero_division"]

/-- The `cross_val_score(...)` call of `train`: Python raises `TypeError`
before running any fold when a keyword argument is not a parameter of the
callee; otherwise the call would return the fold scores, summarised here by
their mean and standard deviation. -/
def cross_val_score_call (okResult : ℚ × ℚ) : Except String (ℚ × ℚ) :=
  if trainCvCallKwargNames.all (fun k => crossValScoreKwargNames.contains k) then
    .ok okResult
  else
    .error "TypeError: cross_val_score() got an unexpected keyword argument"

/-- The cross-validation metrics `train` reports: `(cv_mean_f1, cv_std_f1,
cv_folds)`.  `inSampleF1` is the F1 of the fitted model re-applied to its own
training data, the fallback both branches use. -/
def train_cv_metrics (minorityCount : Nat) (cvOk : ℚ × ℚ) (inSampleF1 : ℚ) :
    ℚ × ℚ × Nat :=
  if 3 ≤ minorityCount then
    match cross_val_score_call cvOk with
    | .ok p => (p.1, p.2, min 5 minorityCount)
    | .error _ => (inSampleF1, 0, 1)
  else (inSampleF1, 0, 1)

/-! ## Specification-side definitions

These transcribe what the *claims* say, to be compared with the definitions
above, which transcribe the source. -/

/-- The feature-name sequence `extract_features` actually emits, in the
source's insertion order (including the label column). -/
def mlFeatureNames : List String :=
  ["commit_hour", "commit_day_of_week", "message_length", "has_suspicious_keywords",
   "regex_detected_count", "max_regex_severity", "is_sensitive_file", "files_modified",
   "code_additions", "code_deletions", "total_changes", "change_ratio",
   "has_config_files", "has_env_files", "label"]

/-- The feature-name sequence `extract_commit_features` actually emits, in
the source's insertion order. -/
def guiFeatureNames : List String :=
  ["has_suspicious_keywords", "regex_detected_count", "max_regex_severity",
   "is_sensitive_file", "commit_hour", "commit_day_of_week", "message_length",
   "files_modified", "code_additions", "code_deletions", "has_config_files",
   "has_env_files", "prediction_label", "prediction_confidence"]

/-- The ordered feature set claim C2 asserts the extractor produces. -/
def claimedFeatureNames : List String :=
  ["commit_hour", "commit_day_of_week", "message_length", "has_suspicious_keywords",
   "regex_detected_count", "max_regex_severity", "is_sensitive_file", "files_modified",
   "code_additions", "code_deletions", "has_config_files", "has_env_files"]

/-- The password-specific rejection rule exactly as claim C5 states it:
reject iff the value extracted after the key/value separator is shorter than
4 characters or equals a known placeholder word, or — when no value can be
isolated — the whole match is shorter than 8 characters. -/
def passwordFalsePositiveClaim (matchText : String) : Bool :=
  match extractValue matchText.data with
  | some v =>
    decide (v.length < 4) || passwordPlaceholders.contains (String.mk (v.map Char.toLower))
  | none => decide (matchText.length < 8)

/-! ## Concrete instances used by counterexamples and witnesses -/

/-- A commit row for evaluating the training-side feature extractor: its one
changed path is `.env`, a sensitive file. -/
def c2Commit : MlCommitRow :=
  { date_hour := 12, date_weekday := 3, commit_message := "", files_changed := 1,
    additions := 2, deletions := 3, has_credentials := false, file_path := ".env" }

/-- A stand-in fitted estimator: label 1, probabilities echo the input. -/
def c3Model : List ℚ → Nat × List ℚ := fun xs => (1, xs)

/-- A trained classifier expecting columns `a`, `b` with identity scaling. -/
def c3Clf : Classifier :=
  { model := some c3Model, scalerMean := [0, 0], scalerScale := [1, 1],
    feature_names := ["a", "b"] }

/-- An input row whose columns are a reordered superset of `c3Clf`'s
feature names. -/
def c3Row : List (String × ℚ) := [("b", 5), ("a", 2), ("extra", 7)]

/-- An untrained classifier. -/
def c9Clf : Classifier :=
  { model := none, scalerMean := [], scalerScale := [], feature_names := [] }

/-- A constant train/test split for exercising `prepare_data`. -/
def c8Tts : List (List ℚ × Nat) → SplitData :=
  fun _ => { xTrain := [[1], [2]], xTest := [[3]], yTrain := [0, 1], yTest := [1] }

/-- An oversampler that always fails, as SMOTE does on too-few neighbours. -/
def c8SmoteFail : List (List ℚ) → List Nat →
    Except String (List (List ℚ) × List Nat) :=
  fun _ _ => .error "Expected n_neighbors <= n_samples"

/-- A scaler whose transform is the identity. -/
def c8Scaler : List (List ℚ) → (List ℚ → List ℚ) := fun _ => id

/-- A one-line diff adding an AWS access key. -/
def c6Diff : String := "+AKIA0123456789ABCDEF"

/-- The detection that diff produces. -/
def c6Det : Detection :=
  { dtype := "aws_access_key", file_path := "f", line_number := 1,
    pattern := "AKIA0123456789ABCDEF", severity := "CRITICAL" }

/-- A diff with a header, a file marker and a context line before the
added line, so the added line sits at diff position 4. -/
def c10Diff : String := "--- a/x\n+++ b/x\ncontext\n+AKIA0123456789ABCDEF"

/-- The detection that diff produces: `line_number` is 4, its position in
the diff text, counting the header, marker and context lines. -/
def c10Det : Detection :=
  { dtype := "aws_access_key", file_path := "g", line_number := 4,
    pattern := "AKIA0123456789ABCDEF", severity := "CRITICAL" }

/-- Decidable equality for `Except` results, so that concrete outcomes of
`predict`/`evaluate` can be checked by evaluation. -/
instance {ε α : Type} [DecidableEq ε] [DecidableEq α] : DecidableEq (Except ε α) :=
  fun a b =>
    match a, b with
    | .ok x, .ok y =>
      if h : x = y then .isTrue (by rw [h])
      else .isFalse (by intro he; cases he; exact h rfl)
    | .error x, .error y =>
      if h : x = y then .isTrue (by rw [h])
      else .isFalse (by intro he; cases he; exact h rfl)
    | .ok _, .error _ => .isFalse (by intro he; cases he)
    | .error _, .ok _ => .isFalse (by intro he; cases he)

/-! ## Helper lemmas -/

/-- Every detection `detectionsInLine` emits carries the line number it was
given. -/
theorem mem_detectionsInLine_line_number {fp : String} {ln : Nat} {line : String}
    {d : Detection} (h : d ∈ detectionsInLine fp ln line) : d.line_number = ln := by
  unfold detectionsInLine at h
  rw [List.mem_flatMap] at h
  obtain ⟨p, -, hp⟩ := h
  rw [List.mem_map] at hp
  obtain ⟨m, -, rfl⟩ := hp
  rfl

/-- If some requested column is absent from the row, pandas column selection
fails. -/
theorem selectColumns_eq_none_of_missing (names : List String)
    (row : List (String × ℚ)) (h : ∃ n ∈ names, lookupCol n row = none) :
    selectColumns names row = none := by
  induction names with
  | nil => obtain ⟨n, hn, -⟩ := h; simp at hn
  | cons a t ih =>
    obtain ⟨n, hn, hl⟩ := h
    rcases List.mem_cons.mp hn with rfl | hmem
    · simp [selectColumns, hl]
    · have ht := ih ⟨n, hmem, hl⟩
      cases hla : lookupCol a row <;> simp [selectColumns, hla, ht]

/-! ## Claim C9: evaluate/predict on an untrained classifier -/

/-- Claim C9 (confirmed): calling `evaluate` or `predict` on a classifier on
which `train` has never run (so `model is None`) raises the precondition
error `"El modelo no ha sido entrenado"` — not a default metric or a silent
no-op — and leaves the classifier state unchanged. -/
theorem evaluate_predict_untrained (c : Classifier) (xT : List (List ℚ))
    (yT : List Nat) (row : List (String × ℚ)) (h : c.model = none) :
    evaluate c xT yT = (.error "El modelo no ha sido entrenado", c) ∧
    predict c row = (.error "El modelo no ha sido entrenado", c) := by
  unfold evaluate predict
  rw [h]
  exact ⟨rfl, rfl⟩

/-- Witness for C9's theorem at a concrete untrained classifier. -/
theorem evaluate_predict_untrained_witness :
    evaluate c9Clf [[1]] [1] = (.error "El modelo no ha sido entrenado", c9Clf) ∧
    predict c9Clf [("a", 1)] = (.error "El modelo no ha sido entrenado", c9Clf) :=
  evaluate_predict_untrained c9Clf [[1]] [1] [("a", 1)] rfl

/-! ## Claim C4: the cross-validation policy of `train` -/

/-- Claim C4 (code bug): the claim describes the intended policy — k-fold
cross-validation when the minority class has at least 3 samples — but the
`cross_val_score` call passes the keyword `zero_division=0`, which is not a
parameter of `cross_val_score`, so the call raises `TypeError` and is caught:
for **every** minority count and every would-be fold result, `train` reports
the in-sample F1 with standard deviation 0 and fold count 1. -/
theorem train_cv_metrics_always_fallback (minorityCount : Nat) (cvOk : ℚ × ℚ)
    (inSampleF1 : ℚ) :
    train_cv_metrics minorityCount cvOk inSampleF1 = (inSampleF1, 0, 1) := by
  unfold train_cv_metrics
  split <;> rfl

/-! ## Claim C8: the test split is untouched by oversampling -/

/-- Claim C8 (confirmed): `prepare_data` applies oversampling to the training
split only — whatever the split, the oversampler and the scaler fit are, the
returned test labels are exactly the stratified partition's test labels, the
test row count is preserved (rows are only rescaled), and an oversampling
failure is caught: the training split then continues unchanged rather than
aborting preparation. -/
theorem prepare_data_test_split_inv (tts : List (List ℚ × Nat) → SplitData)
    (smote : List (List ℚ) → List Nat → Except String (List (List ℚ) × List Nat))
    (mkScaler : List (List ℚ) → (List ℚ → List ℚ))
    (df : List (List ℚ × Nat)) :
    (prepare_data tts smote mkScaler df).yTest = (tts df).yTest ∧
    (prepare_data tts smote mkScaler df).xTest.length = (tts df).xTest.length ∧
    (∀ e, smote (tts df).xTrain (tts df).yTrain = .error e →
      (prepare_data tts smote mkScaler df).yTrain = (tts df).yTrain) := by
  unfold prepare_data
  cases hs : smote (tts df).xTrain (tts df).yTrain <;>
    simp [hs, List.length_map]

/-- Witness for C8's theorem: a concrete split whose oversampler fails. -/
theorem prepare_data_test_split_inv_witness :
    (prepare_data c8Tts c8SmoteFail c8Scaler []).yTest = (c8Tts []).yTest ∧
    (prepare_data c8Tts c8SmoteFail c8Scaler []).xTest.length =
      (c8Tts []).xTest.length ∧
    (prepare_data c8Tts c8SmoteFail c8Scaler []).yTrain = (c8Tts []).yTrain :=
  ⟨(prepare_data_test_split_inv c8Tts c8SmoteFail c8Scaler []).1,
   (prepare_data_test_split_inv c8Tts c8SmoteFail c8Scaler []).2.1,
   (prepare_data_test_split_inv c8Tts c8SmoteFail c8Scaler []).2.2
     "Expected n_neighbors <= n_samples" rfl⟩

/-! ## Claim C3: the input contract of `predict` -/

/-- Counterexample to claim C3 as stated: `predict` does **not** fail when
the input's column set differs from the trained `feature_names` — here the
input's columns are a reordered superset, and `predict` silently reorders
and drops, succeeding. -/
theorem predict_reorders_cx :
    c3Row.map Prod.fst ≠ c3Clf.feature_names ∧
    (predict c3Clf c3Row).1 = .ok (1, [2, 5]) := by
  refine ⟨by decide, ?_⟩
  have hsel : selectColumns c3Clf.feature_names c3Row = some [2, 5] := by decide
  show (predict c3Clf c3Row).1 = Except.ok (1, [2, 5])
  unfold predict
  rw [show c3Clf.model = some c3Model from rfl, hsel]
  show Except.ok (c3Model (scaleRow c3Clf.scalerMean c3Clf.scalerScale [2, 5])) =
    Except.ok (1, [2, 5])
  unfold c3Model c3Clf scaleRow
  norm_num

/-- Claim C3 (amended): `predict` fails with the untrained error when no
model is fitted, and with `KeyError` when **some trained feature name is
absent** from the input row; when every trained name is present it succeeds —
regardless of column order or extra columns — selecting the trained columns
in training order, applying the model's own fitted scaler, and returning the
hard label with the class probabilities. -/
theorem predict_spec (c : Classifier) (row : List (String × ℚ)) :
    (c.model = none →
      predict c row = (.error "El modelo no ha sido entrenado", c)) ∧
    (∀ m, c.model = some m →
      ((∃ n ∈ c.feature_names, lookupCol n row = none) →
        predict c row = (.error "KeyError", c)) ∧
      (∀ xs, selectColumns c.feature_names row = some xs →
        predict c row = (.ok (m (scaleRow c.scalerMean c.scalerScale xs)), c))) := by
  constructor
  · intro h; unfold predict; rw [h]
  · intro m hm
    constructor
    · intro hex
      have hsel := selectColumns_eq_none_of_missing _ _ hex
      unfold predict; rw [hm, hsel]
    · intro xs hxs
      unfold predict; rw [hm, hxs]

/-- Witness for C3's amended theorem: the trained branch at a concrete
classifier and row. -/
theorem predict_spec_witness :
    predict c3Clf c3Row =
      (.ok (c3Model (scaleRow c3Clf.scalerMean c3Clf.scalerScale [2, 5])), c3Clf) :=
  ((predict_spec c3Clf c3Row).2 c3Model rfl).2 [2, 5] (by decide)

/-! ## Claim C1: the repository risk level -/

/-- Counterexample to claim C1 as stated: with one detection and zero
commits the division is **not** guarded — `determine_risk_level 1 0` raises
`ZeroDivisionError` (embedded as `none`) instead of returning `LOW`. -/
theorem determine_risk_level_cx :
    determine_risk_level 1 0 = none ∧
    determine_risk_level 1 0 ≠ some RiskLevel.LOW := by
  exact ⟨rfl, by decide⟩

/-- Claim C1 (amended): `determine_risk_level` returns `LOW` whenever
`total_detections = 0` (which is the only guard the source has, and covers
the ratio-zero case); with a positive detection count and zero commits the
division raises; with positive commits the ratio thresholds are as claimed:
`> 0.10 → CRITICAL`, `> 0.05 → HIGH`, `> 0.01 → MEDIUM`, else `LOW`. -/
theorem determine_risk_level_spec (d c : Nat) :
    (d = 0 → determine_risk_level d c = some RiskLevel.LOW) ∧
    (0 < d → c = 0 → determine_risk_level d c = none) ∧
    (0 < c →
      ((d : ℚ) / (c : ℚ) = 0 → determine_risk_level d c = some RiskLevel.LOW) ∧
      (1 / 10 < (d : ℚ) / (c : ℚ) →
        determine_risk_level d c = some RiskLevel.CRITICAL) ∧
      ((d : ℚ) / (c : ℚ) ≤ 1 / 10 → 1 / 20 < (d : ℚ) / (c : ℚ) →
        determine_risk_level d c = some RiskLevel.HIGH) ∧
      ((d : ℚ) / (c : ℚ) ≤ 1 / 20 → 1 / 100 < (d : ℚ) / (c : ℚ) →
        determine_risk_level d c = some RiskLevel.MEDIUM) ∧
      ((d : ℚ) / (c : ℚ) ≤ 1 / 100 →
        determine_risk_level d c = some RiskLevel.LOW)) := by
  refine ⟨?_, ?_, ?_⟩
  · rintro rfl; rfl
  · intro hd hc
    subst hc
    unfold determine_risk_level
    rw [if_neg (Nat.pos_iff_ne_zero.mp hd), if_pos rfl]
  · intro hc
    have hc0 : c ≠ 0 := Nat.pos_iff_ne_zero.mp hc
    have hcq : (0 : ℚ) < (c : ℚ) := by exact_mod_cast hc
    by_cases hd : d = 0
    · subst hd
      have hr : ((0 : Nat) : ℚ) / (c : ℚ) = 0 := by simp
      refine ⟨fun _ => rfl, ?_, ?_, ?_, fun _ => rfl⟩
      · intro h; rw [hr] at h; norm_num at h
      · intro h1 h2; rw [hr] at h2; norm_num at h2
      · intro h1 h2; rw [hr] at h2; norm_num at h2
    · have hdq : (0 : ℚ) < (d : ℚ) := by
        exact_mod_cast Nat.pos_of_ne_zero hd
      have hrpos : 0 < (d : ℚ) / (c : ℚ) := div_pos hdq hcq
      have hstep : determine_risk_level d c =
          (if (d : ℚ) / (c : ℚ) > 1 / 10 then some RiskLevel.CRITICAL
           else if (d : ℚ) / (c : ℚ) > 1 / 20 then some RiskLevel.HIGH
           else if (d : ℚ) / (c : ℚ) > 1 / 100 then some RiskLevel.MEDIUM
           else some RiskLevel.LOW) := by
        unfold determine_risk_level
        rw [if_neg hd, if_neg hc0]
      refine ⟨fun h => absurd h hrpos.ne', ?_, ?_, ?_, ?_⟩
      · intro h
        rw [hstep, if_pos h]
      · intro h1 h2
        rw [hstep, if_neg (not_lt.mpr h1), if_pos h2]
      · intro h1 h2
        rw [hstep, if_neg (not_lt.mpr (by linarith)), if_neg (not_lt.mpr h1),
          if_pos h2]
      · intro h1
        rw [hstep, if_neg (not_lt.mpr (by linarith)),
          if_neg (not_lt.mpr (by linarith)), if_neg (not_lt.mpr h1)]

/-- Witness for C1's amended theorem: 6 detections over 50 commits have
ratio 0.12 > 0.10, hence `CRITICAL` (as the spec's own boundary note says,
not `HIGH`). -/
theorem determine_risk_level_spec_witness :
    determine_risk_level 6 50 = some RiskLevel.CRITICAL :=
  (((determine_risk_level_spec 6 50).2.2 (by norm_num)).2.1) (by norm_num)

/-! ## Claim C7: the per-commit risk score -/

/-- Counterexample to claim C7 as stated: at the claim's own example input
the score is `0.9`, not `1.0` (`0.5 + 0.2 + 0.1 + 0.1 = 0.9` is below the
clamp); and with **no** detections but large change volume the score is
`0.2`, not `0` — the volume bonuses are added regardless of detections. -/
theorem calculate_risk_score_cx :
    calculate_risk_score true 2 150 15 = 9 / 10 ∧
    calculate_risk_score false 0 150 15 = 1 / 5 := by
  constructor <;>
    · simp only [calculate_risk_score]
      norm_num [min_def]

/-- Claim C7 (amended): the risk score is
`min ((0.5 + 0.1·count if detections else 0) + (0.1 if additions > 100) +
(0.1 if files > 10), 1)` — the two volume bonuses apply regardless of
detection presence — and it always lies in `[0, 1]`. -/
theorem calculate_risk_score_spec (h : Bool) (n a f : Nat) :
    calculate_risk_score h n a f =
      min ((if h then (1 : ℚ) / 2 + (n : ℚ) / 10 else 0) +
           (if 100 < a then (1 : ℚ) / 10 else 0) +
           (if 10 < f then (1 : ℚ) / 10 else 0)) 1 ∧
    0 ≤ calculate_risk_score h n a f ∧
    calculate_risk_score h n a f ≤ 1 := by
  have hn : (0 : ℚ) ≤ (n : ℚ) := Nat.cast_nonneg n
  simp only [calculate_risk_score]
  cases h <;> split_ifs <;>
    exact ⟨by ring_nf, le_min (by positivity) (by norm_num), min_le_right _ _⟩

/-! ## Claim C2: the extracted feature set -/

/-- Counterexample to claim C2 as stated: the training-side extractor does
**not** produce the claimed ordered feature set — it also emits
`total_changes` and `change_ratio` — and `has_config_files` is the constant
0 even for this commit whose changed path `.env` satisfies the
sensitive-file predicate. -/
theorem extract_features_row_cx :
    (extract_features_row c2Commit).map Prod.fst ≠ claimedFeatureNames ++ ["label"] ∧
    lookupCol "has_config_files" (extract_features_row c2Commit) = some 0 ∧
    is_sensitive_file c2Commit.file_path = true := by
  exact ⟨by decide, by decide, by decide⟩

/-- Claim C2 (amended): the training extractor `extract_features` emits
exactly the 15 columns `commit_hour, commit_day_of_week, message_length,
has_suspicious_keywords, regex_detected_count, max_regex_severity,
is_sensitive_file, files_modified, code_additions, code_deletions,
total_changes, change_ratio, has_config_files, has_env_files, label` in that
order, with `has_config_files` and `has_env_files` hard-coded to 0; the
GUI extractor `extract_commit_features` emits its 14 columns in its own
(different) order, and there `has_config_files = 1` iff some changed file
matches the sensitive-file predicate and `has_env_files = 1` iff some
changed filename contains `.env`. -/
theorem extract_features_names_spec :
    (∀ commit : MlCommitRow,
      (extract_features_row commit).map Prod.fst = mlFeatureNames ∧
      lookupCol "has_config_files" (extract_features_row commit) = some 0 ∧
      lookupCol "has_env_files" (extract_features_row commit) = some 0) ∧
    (∀ (commit : GuiCommit) (details : GuiCommitDetails),
      (extract_commit_features commit details).map Prod.fst = guiFeatureNames ∧
      lookupCol "has_config_files" (extract_commit_features commit details) =
        some (boolQ (details.files.any fun f => is_sensitive_file f.filename)) ∧
      lookupCol "has_env_files" (extract_commit_features commit details) =
        some (boolQ (details.files.any fun f => strContains (lowerStr f.filename) ".env"))) :=
  ⟨fun _ => ⟨rfl, rfl, rfl⟩, fun _ _ => ⟨rfl, rfl, rfl⟩⟩

/-! ## Claim C5: the password false-positive filter -/

/-- Counterexample to claim C5 as stated: `password: dummy123` **is** a
match of the password-type pattern, and its extracted value `dummy123` is
8 characters long and no placeholder word — so by the claim's "iff" the
filter must keep it — yet the filter rejects it, because the generic
pattern `dummy` also fires.  The claimed equivalence omits the generic
false-positive patterns. -/
theorem password_filter_cx :
    scanAll ("password: dummy123".data.length + 1) rePassword
        "password: dummy123".data = ["password: dummy123".data] ∧
    isFalsePositive "password: dummy123" "password" = true ∧
    passwordFalsePositiveClaim "password: dummy123" = false := by
  exact ⟨by decide, by decide, by decide⟩

/-- Claim C5 (amended): for the password-type pattern the filter rejects a
match iff a generic false-positive pattern fires on it **or** the claimed
value rule holds (value shorter than 4 characters or a placeholder word;
whole match shorter than 8 characters when no value can be isolated).  The
claim's two scan examples do hold: `password: "example123"` yields a
detection and `password: "pwd"` yields none. -/
theorem is_false_positive_password_spec :
    (∀ m : String, isFalsePositive m "password" =
      (genericFalsePositive m || passwordFalsePositiveClaim m)) ∧
    detect_in_text "password: \"example123\"" "" ≠ [] ∧
    detect_in_text "password: \"pwd\"" "" = [] := by
  refine ⟨?_, by decide, by decide⟩
  intro m
  unfold isFalsePositive passwordValueCheck passwordFalsePositiveClaim
  cases hg : genericFalsePositive m <;> simp [hg]

/-! ## Claim C6: diff mode scans only added lines -/

/-- Claim C6 (confirmed): every detection reported by diff-mode scanning
comes from a line of the diff that begins with the addition marker `+` and
not with the file-header marker `+++`, and the pattern was matched against
that line with the marker dropped and the result stripped; no other line
contributes detections. -/
theorem detect_in_commit_diff_only_added (diff filePath : String) (d : Detection)
    (hd : d ∈ detect_in_commit_diff diff filePath) :
    ∃ line ∈ splitLines diff.data,
      leadsWith ['+'] line = true ∧ leadsWith ['+', '+', '+'] line = false ∧
      d ∈ detectionsInLine filePath d.line_number
        (String.mk (pyStrip (line.drop 1))) := by
  unfold detect_in_commit_diff at hd
  rw [List.mem_flatMap] at hd
  obtain ⟨p, hpmem, hpd⟩ := hd
  split at hpd
  case isFalse => exact absurd hpd (List.not_mem_nil d)
  case isTrue hc =>
    rw [Bool.and_eq_true] at hc
    obtain ⟨ha, hnb⟩ := hc
    have hline := mem_detectionsInLine_line_number hpd
    refine ⟨p.2, ?_, ha, by simpa using hnb, ?_⟩
    · exact List.getElem?_mem (List.mem_enum_iff_getElem?.mp hpmem)
    · rw [hline]; exact hpd

/-- Witness for C6's theorem at a one-line diff adding an AWS key. -/
theorem detect_in_commit_diff_only_added_witness :
    ∃ line ∈ splitLines c6Diff.data,
      leadsWith ['+'] line = true ∧ leadsWith ['+', '+', '+'] line = false ∧
      c6Det ∈ detectionsInLine "f" c6Det.line_number
        (String.mk (pyStrip (line.drop 1))) :=
  detect_in_commit_diff_only_added c6Diff "f" c6Det (by decide)

/-! ## Claim C10: diff-mode line numbers are positions in the diff text -/

/-- Claim C10 (confirmed): the `line_number` of every diff-mode detection is
the 1-based position of the matched line within the supplied diff text
itself — the enumeration counts header, context and removal lines alike —
not the line's number in the modified file. -/
theorem detect_in_commit_diff_line_number_pos (diff filePath : String)
    (d : Detection) (hd : d ∈ detect_in_commit_diff diff filePath) :
    ∃ i line, (splitLines diff.data)[i]? = some line ∧
      d.line_number = i + 1 ∧ leadsWith ['+'] line = true := by
  unfold detect_in_commit_diff at hd
  rw [List.mem_flatMap] at hd
  obtain ⟨p, hpmem, hpd⟩ := hd
  split at hpd
  case isFalse => exact absurd hpd (List.not_mem_nil d)
  case isTrue hc =>
    rw [Bool.and_eq_true] at hc
    exact ⟨p.1, p.2, List.mem_enum_iff_getElem?.mp hpmem,
      mem_detectionsInLine_line_number hpd, hc.1⟩

/-- Witness for C10's theorem: in a diff whose added line is preceded by a
header, a file marker and a context line, the detection's `line_number` is
4 — its position in the diff text. -/
theorem detect_in_commit_diff_line_number_pos_witness :
    ∃ i line, (splitLines c10Diff.data)[i]? = some line ∧
      c10Det.line_number = i + 1 ∧ leadsWith ['+'] line = true :=
  detect_in_commit_diff_line_number_pos c10Diff "g" c10Det (by decide)

end GithubAnalyzer
